import Mathlib

/-!
Verification of the dual-protocol conversion service (`src/app.py`).

The service is embedded shallowly over `ℚ`:

* Python floats become rationals; the fixed seed rates (1.0, 0.92, 0.78,
  150.0) are exactly representable, so all rate arithmetic of the source is
  exact here.
* Python's `round(x, n)` rounds half to even at `n` decimal places; this is
  `roundHalfEven` below, scaled by `10^n`.
* A Python `dict` with string keys and fixed insertion order becomes an
  association list; membership tests and indexing become `lookupRate`.
* A raised `ValueError` becomes `Except.error` carrying the exception
  message; an HTTP 400 response becomes `Http.badRequest` carrying the
  `error` field of the JSON body.
-/

/-- The rate table `CurrencyService.fallback_rates` (src/app.py:16-21), a
process-wide constant, in its insertion order USD, EUR, GBP, JPY. -/
def fallback_rates : List (String × ℚ) :=
  [("USD", 1), ("EUR", 92/100), ("GBP", 78/100), ("JPY", 150)]

/-- Dictionary lookup on an association list: Python's `d[k]` / `k in d`
combined, returning `none` when the key is absent. -/
def lookupRate : List (String × ℚ) → String → Option ℚ
  | [], _ => none
  | (k, v) :: rest, c => if c = k then some v else lookupRate rest c

/-- Rate of a currency code in the fixed table, `none` when the code is not a
key (Python: `c in CurrencyService.fallback_rates` / indexing). -/
def rateOf (c : String) : Option ℚ :=
  lookupRate fallback_rates c

/-- Round half to even to the nearest integer, the semantics of Python's
built-in `round` on its (exactly represented) argument. A float argument of
the program sits at an exact 2- or 3-decimal tie only if the tie value is
binary64-representable, which such ties never are, so no theorem below rests
on the exact-tie branch. -/
def roundHalfEven (q : ℚ) : ℤ :=
  if q - (⌊q⌋ : ℚ) < 1/2 then ⌊q⌋
  else if q - (⌊q⌋ : ℚ) > 1/2 then ⌊q⌋ + 1
  else if ⌊q⌋ % 2 = 0 then ⌊q⌋ else ⌊q⌋ + 1

/-- Python `round(q, 2)`. -/
def round2 (q : ℚ) : ℚ :=
  (roundHalfEven (q * 100) : ℚ) / 100

/-- Python `round(q, 3)`. -/
def round3 (q : ℚ) : ℚ :=
  (roundHalfEven (q * 1000) : ℚ) / 1000

/-- The service method `CurrencyService.convert_currency` (src/app.py:23-28): raises
`ValueError("Invalid currency code.")` when either code is not a key of the
table, otherwise returns `round(amount * (table[to] / table[from]), 2)`. -/
def convert_currency (from_currency to_currency : String) (amount : ℚ) :
    Except String ℚ :=
  match rateOf from_currency, rateOf to_currency with
  | some rf, some rt => Except.ok (round2 (amount * (rt / rf)))
  | _, _ => Except.error "Invalid currency code."

/-- The service method `CurrencyService.get_rates` (src/app.py:30-36): raises
`ValueError("Invalid base currency")` when the base is not a key, otherwise
yields `(curr, round(rate / table[base], 3))` for each table entry in
insertion order. -/
def get_rates (base_currency : String) : Except String (List (String × ℚ)) :=
  match rateOf base_currency with
  | none => Except.error "Invalid base currency"
  | some base =>
    Except.ok (fallback_rates.map (fun p => (p.1, round3 (p.2 / base))))

/-- An HTTP endpoint outcome: a 200 response with a JSON body, or a 400
response whose body is `{error: <string>}`. -/
inductive Http (α : Type) where
  | ok (body : α)
  | badRequest (error : String)
deriving DecidableEq

/-- JSON body of a 200 response of `POST /convert_temp` (src/app.py:82). -/
structure TempBody where
  from_unit : String
  to_unit : String
  value : ℚ
  result : ℚ
deriving DecidableEq

/-- The `/convert_temp` endpoint (src/app.py:72-82). -/
def convert_temp (from_unit to_unit : String) (value : ℚ) : Http TempBody :=
  if from_unit = "C" ∧ to_unit = "F" then
    Http.ok ⟨from_unit, to_unit, value, round2 (value * 9 / 5 + 32)⟩
  else if from_unit = "F" ∧ to_unit = "C" then
    Http.ok ⟨from_unit, to_unit, value, round2 ((value - 32) * 5 / 9)⟩
  else
    Http.badRequest "Invalid conversion units"

/-- The JSON value in the `result` field of `/calculate`: a Python `int`
(add/subtract/multiply), a Python `float` (true division, embedded as `ℚ`),
or the string `'Infinity'` (src/app.py:95). -/
inductive CalcValue where
  | intVal (n : ℤ)
  | floatVal (q : ℚ)
  | infinity
deriving DecidableEq

/-- JSON body of a 200 response of `POST /calculate` (src/app.py:98). -/
structure CalcBody where
  operation : String
  intA : ℤ
  intB : ℤ
  result : CalcValue
deriving DecidableEq

/-- The `/calculate` endpoint (src/app.py:84-98). -/
def calculate (op : String) (a b : ℤ) : Http CalcBody :=
  if op = "add" then Http.ok ⟨op, a, b, CalcValue.intVal (a + b)⟩
  else if op = "subtract" then Http.ok ⟨op, a, b, CalcValue.intVal (a - b)⟩
  else if op = "multiply" then Http.ok ⟨op, a, b, CalcValue.intVal (a * b)⟩
  else if op = "divide" then
    Http.ok ⟨op, a, b,
      if b ≠ 0 then CalcValue.floatVal ((a : ℚ) / (b : ℚ))
      else CalcValue.infinity⟩
  else Http.badRequest "Invalid operation"

/-- JSON body of `POST /convert` (src/app.py:56-59): each field is read with
`data.get`, so any of them may be absent (`none`). -/
structure ConvertBody where
  from_currency : Option String
  to_currency : Option String
  amount : Option ℚ

/-- JSON body of a 200 response of `POST /convert` (src/app.py:62). -/
structure ConvertResponse where
  from_currency : String
  to_currency : String
  amount : ℚ
  result : ℚ
deriving DecidableEq

/-- The `/convert` endpoint (src/app.py:54-62). `data.get('amount', 1.0)`
defaults a missing amount to `1.0`. A missing `from_currency`/`to_currency`
is Python `None`, which is never a key of the string-keyed rate table, so the
service raises `ValueError("Invalid currency code.")` exactly as for an
unknown code; the outer match models that. An uncaught service exception
propagates out of the endpoint (`Except.error`). -/
def http_convert (body : ConvertBody) : Except String ConvertResponse :=
  let amount := body.amount.getD 1
  match body.from_currency, body.to_currency with
  | some f, some t =>
    match convert_currency f t amount with
    | Except.ok result => Except.ok ⟨f, t, amount, result⟩
    | Except.error e => Except.error e
  | _, _ => Except.error "Invalid currency code."

/-- Exhaustive description of a successful table lookup: the four keys and
their seed values. -/
theorem rateOf_cases {c : String} {r : ℚ} (h : rateOf c = some r) :
    (c = "USD" ∧ r = 1) ∨ (c = "EUR" ∧ r = 92/100) ∨
    (c = "GBP" ∧ r = 78/100) ∨ (c = "JPY" ∧ r = 150) := by
  simp only [rateOf, fallback_rates, lookupRate] at h
  split_ifs at h with h1 h2 h3 h4 <;> simp_all

/-- Every value of the rate table is positive (the RateTable invariant of the
spec's data model). -/
theorem rateOf_pos {c : String} {r : ℚ} (h : rateOf c = some r) : 0 < r := by
  rcases rateOf_cases h with ⟨_, hr⟩ | ⟨_, hr⟩ | ⟨_, hr⟩ | ⟨_, hr⟩ <;>
    rw [hr] <;> norm_num

/-- Evaluation: below the midpoint, round half to even is the floor. -/
theorem roundHalfEven_eq_of_lt {q : ℚ} {n : ℤ} (h1 : (n : ℚ) ≤ q)
    (h2 : q < (n : ℚ) + 1/2) : roundHalfEven q = n := by
  have hfl : ⌊q⌋ = n := Int.floor_eq_iff.mpr ⟨h1, by linarith⟩
  unfold roundHalfEven
  rw [hfl, if_pos (by linarith)]

/-- Evaluation: above the midpoint, round half to even is the ceiling. -/
theorem roundHalfEven_eq_of_gt {q : ℚ} {n : ℤ} (h1 : (n : ℚ) + 1/2 < q)
    (h2 : q < (n : ℚ) + 1) : roundHalfEven q = n + 1 := by
  have hfl : ⌊q⌋ = n := Int.floor_eq_iff.mpr ⟨by linarith, by linarith⟩
  unfold roundHalfEven
  rw [hfl, if_neg (not_lt.mpr (by linarith)),
    if_pos (by linarith)]

/-- Evaluation rule for `round2` via the scaled floor. -/
theorem round2_eq_of_lt {q : ℚ} {n : ℤ} (h1 : (n : ℚ) ≤ q * 100)
    (h2 : q * 100 < (n : ℚ) + 1/2) : round2 q = (n : ℚ) / 100 := by
  rw [round2, roundHalfEven_eq_of_lt h1 h2]

/-- Evaluation rule for `round2` via the scaled ceiling. -/
theorem round2_eq_of_gt {q : ℚ} {n : ℤ} (h1 : (n : ℚ) + 1/2 < q * 100)
    (h2 : q * 100 < (n : ℚ) + 1) : round2 q = ((n : ℚ) + 1) / 100 := by
  rw [round2, roundHalfEven_eq_of_gt h1 h2]; push_cast; ring

/-- Evaluation rule for `round3` via the scaled floor. -/
theorem round3_eq_of_lt {q : ℚ} {n : ℤ} (h1 : (n : ℚ) ≤ q * 1000)
    (h2 : q * 1000 < (n : ℚ) + 1/2) : round3 q = (n : ℚ) / 1000 := by
  rw [round3, roundHalfEven_eq_of_lt h1 h2]

/-- Evaluation rule for `round3` via the scaled ceiling. -/
theorem round3_eq_of_gt {q : ℚ} {n : ℤ} (h1 : (n : ℚ) + 1/2 < q * 1000)
    (h2 : q * 1000 < (n : ℚ) + 1) : round3 q = ((n : ℚ) + 1) / 1000 := by
  rw [round3, roundHalfEven_eq_of_gt h1 h2]; push_cast; ring

/-- Rounding an integer-scaled quantity changes it by at most one half. -/
theorem abs_roundHalfEven_sub_le (q : ℚ) : |(roundHalfEven q : ℚ) - q| ≤ 1/2 := by
  have h0 : ((⌊q⌋ : ℤ) : ℚ) ≤ q := Int.floor_le q
  have h1 : q < ((⌊q⌋ : ℤ) : ℚ) + 1 := Int.lt_floor_add_one q
  unfold roundHalfEven
  split_ifs with hc1 hc2 hc3 <;>
    · rw [abs_le]; push_cast; constructor <;> linarith

/-- `round2` changes its argument by at most `0.005`. -/
theorem abs_round2_sub_le (q : ℚ) : |round2 q - q| ≤ 1/200 := by
  have h := abs_roundHalfEven_sub_le (q * 100)
  have e : round2 q - q = ((roundHalfEven (q * 100) : ℚ) - q * 100) / 100 := by
    rw [round2]; ring
  calc |round2 q - q| = |(roundHalfEven (q * 100) : ℚ) - q * 100| / 100 := by
        rw [e, abs_div]; norm_num
    _ ≤ 1/200 := by linarith

theorem round2_92 : round2 92 = 92 := by
  rw [@round2_eq_of_lt 92 9200 (by norm_num) (by norm_num)]; norm_num

theorem round2_5 : round2 5 = 5 := by
  rw [@round2_eq_of_lt 5 500 (by norm_num) (by norm_num)]; norm_num

theorem round2_15000 : round2 15000 = 15000 := by
  rw [@round2_eq_of_lt 15000 1500000 (by norm_num) (by norm_num)]; norm_num

theorem round2_inv_150 : round2 (1/150) = 1/100 := by
  rw [@round2_eq_of_gt (1/150) 0 (by norm_num) (by norm_num)]; norm_num

theorem round2_25_23 : round2 (25/23) = 109/100 := by
  rw [@round2_eq_of_gt (25/23) 108 (by norm_num) (by norm_num)]; norm_num

theorem round2_92_cents : round2 (92/100) = 92/100 := by
  rw [@round2_eq_of_lt (92/100) 92 (by norm_num) (by norm_num)]; norm_num

theorem round3_one : round3 1 = 1 := by
  rw [@round3_eq_of_lt 1 1000 (by norm_num) (by norm_num)]; norm_num

/-- Evaluation of the service on the spec's worked example. -/
theorem convert_usd_eur_100 : convert_currency "USD" "EUR" 100 = Except.ok 92 := by
  show Except.ok (round2 (100 * (92/100 / 1))) = Except.ok 92
  have harg : (100 : ℚ) * (92/100 / 1) = 92 := by norm_num
  rw [harg, round2_92]

/-- Claim C1: for every `from`, `to` and `amount`, `convert_currency` fails
with the invalid-currency error when `from` or `to` is not a key of the rate
table, and otherwise returns `round(amount * table[to] / table[from], 2)`. -/
theorem convert_currency_spec (f t : String) (amount : ℚ) :
    ((rateOf f = none ∨ rateOf t = none) →
      convert_currency f t amount = Except.error "Invalid currency code.") ∧
    (∀ rf rt, rateOf f = some rf → rateOf t = some rt →
      convert_currency f t amount = Except.ok (round2 (amount * rt / rf))) := by
  constructor
  · intro h
    unfold convert_currency
    rcases h with h | h
    · rw [h]
    · rw [h]
      cases rateOf f <;> rfl
  · intro rf rt hf ht
    unfold convert_currency
    rw [hf, ht, mul_div_assoc]

/-- Witness for C1 at the spec's worked example `100 USD -> EUR`. -/
theorem convert_currency_spec_witness :
    convert_currency "USD" "EUR" 100 = Except.ok (round2 (100 * (92/100) / 1)) :=
  (convert_currency_spec "USD" "EUR" 100).2 1 (92/100) rfl rfl

/-- Claim C2, counterexample: the identity conversion is not exact for every
amount; at `amount = 0.001` the service computes `round(0.001 * 1.0, 2)` and
returns `0.0`. -/
theorem convert_identity_cex :
    convert_currency "USD" "USD" (1/1000) = Except.ok 0 ∧ (0 : ℚ) ≠ 1/1000 := by
  constructor
  · show Except.ok (round2 (1/1000 * (1 / 1))) = Except.ok 0
    have harg : (1/1000 : ℚ) * (1 / 1) = 1/1000 := by norm_num
    rw [harg, @round2_eq_of_lt (1/1000) 0 (by norm_num) (by norm_num)]
    norm_num
  · norm_num

/-- Claim C2 (amended): for every key `X` of the rate table, the identity
conversion returns the amount exactly whenever the amount is already at
2-decimal precision (`round2 amount = amount`). -/
theorem convert_identity_amended (X : String) (amount r : ℚ)
    (hX : rateOf X = some r) (hamount : round2 amount = amount) :
    convert_currency X X amount = Except.ok amount := by
  have hpos := rateOf_pos hX
  unfold convert_currency
  rw [hX]
  show Except.ok (round2 (amount * (r / r))) = Except.ok amount
  have hr : r / r = 1 := div_self (ne_of_gt hpos)
  rw [hr, mul_one, hamount]

/-- Witness for the amended C2 at `X = USD`, `amount = 5`. -/
theorem convert_identity_amended_witness :
    convert_currency "USD" "USD" 5 = Except.ok 5 :=
  convert_identity_amended "USD" 5 1 rfl round2_5

/-- Claim C3: `get_rates` fails with the invalid-currency error when the base
is not a key of the rate table, and otherwise yields, for every entry of the
table in its insertion order (USD, EUR, GBP, JPY), the pair
`(currency, round(rate / table[base], 3))`. -/
theorem get_rates_spec (base : String) :
    (rateOf base = none → get_rates base = Except.error "Invalid base currency") ∧
    (∀ rb, rateOf base = some rb →
      get_rates base =
        Except.ok (fallback_rates.map (fun p => (p.1, round3 (p.2 / rb))))) ∧
    fallback_rates.map Prod.fst = ["USD", "EUR", "GBP", "JPY"] := by
  refine ⟨?_, ?_, rfl⟩
  · intro h
    unfold get_rates
    rw [h]
  · intro rb hb
    unfold get_rates
    rw [hb]

/-- Witness for C3 at `base = EUR`, with the four emitted rates evaluated. -/
theorem get_rates_spec_witness :
    get_rates "EUR" = Except.ok
      [("USD", 1087/1000), ("EUR", 1), ("GBP", 848/1000), ("JPY", 163043/1000)] := by
  have h := (get_rates_spec "EUR").2.1 (92/100) rfl
  rw [h]
  simp only [fallback_rates, List.map_cons, List.map_nil]
  have e1 : (1 : ℚ) / (92/100) = 25/23 := by norm_num
  have e2 : (92/100 : ℚ) / (92/100) = 1 := by norm_num
  have e3 : (78/100 : ℚ) / (92/100) = 39/46 := by norm_num
  have e4 : (150 : ℚ) / (92/100) = 3750/23 := by norm_num
  rw [e1, e2, e3, e4, round3_one,
    @round3_eq_of_gt (25/23) 1086 (by norm_num) (by norm_num),
    @round3_eq_of_gt (39/46) 847 (by norm_num) (by norm_num),
    @round3_eq_of_lt (3750/23) 163043 (by norm_num) (by norm_num)]
  norm_num

/-- Claim C7: for every base currency that is a key of the rate table, the
sequence produced by `get_rates` includes an entry for the base itself with
rate exactly `1.000`. -/
theorem get_rates_includes_base (base : String) (r : ℚ)
    (h : rateOf base = some r) :
    ∃ l, get_rates base = Except.ok l ∧ (base, (1 : ℚ)) ∈ l := by
  refine ⟨fallback_rates.map (fun p => (p.1, round3 (p.2 / r))), ?_, ?_⟩
  · unfold get_rates
    rw [h]
  · refine List.mem_map.mpr ⟨(base, r), ?_, ?_⟩
    · rcases rateOf_cases h with ⟨hb, hr⟩ | ⟨hb, hr⟩ | ⟨hb, hr⟩ | ⟨hb, hr⟩ <;>
        rw [hb, hr] <;> simp [fallback_rates]
    · have hr1 : r / r = 1 := div_self (ne_of_gt (rateOf_pos h))
      simp only [hr1, round3_one]

/-- Witness for C7 at `base = JPY`. -/
theorem get_rates_includes_base_witness :
    ∃ l, get_rates "JPY" = Except.ok l ∧ ("JPY", (1 : ℚ)) ∈ l :=
  get_rates_includes_base "JPY" 150 rfl

/-- Claim C4: the temperature endpoint supports exactly the pairs `C -> F`
(`round(value*9/5+32, 2)`) and `F -> C` (`round((value-32)*5/9, 2)`); every
other pair of unit strings, including identical units, yields HTTP 400 with
body `{error: "Invalid conversion units"}`. -/
theorem convert_temp_spec (f t : String) (v : ℚ) :
    (f = "C" ∧ t = "F" →
      convert_temp f t v = Http.ok ⟨f, t, v, round2 (v * 9 / 5 + 32)⟩) ∧
    (f = "F" ∧ t = "C" →
      convert_temp f t v = Http.ok ⟨f, t, v, round2 ((v - 32) * 5 / 9)⟩) ∧
    (¬(f = "C" ∧ t = "F") → ¬(f = "F" ∧ t = "C") →
      convert_temp f t v = Http.badRequest "Invalid conversion units") := by
  unfold convert_temp
  refine ⟨?_, ?_, ?_⟩ <;> intros <;> split_ifs <;> simp_all

/-- Witness for C4: identical units are rejected, not treated as identity. -/
theorem convert_temp_spec_witness :
    convert_temp "C" "C" 100 = Http.badRequest "Invalid conversion units" :=
  (convert_temp_spec "C" "C" 100).2.2 (by simp) (by simp)

/-- Claim C5: division by zero never fails and returns the `'Infinity'`
sentinel for every dividend; for a nonzero divisor, division returns the true
(possibly non-integer) quotient. -/
theorem calculate_divide_spec :
    (∀ n : ℤ, calculate "divide" n 0 =
      Http.ok ⟨"divide", n, 0, CalcValue.infinity⟩) ∧
    (∀ a b : ℤ, b ≠ 0 → calculate "divide" a b =
      Http.ok ⟨"divide", a, b, CalcValue.floatVal ((a : ℚ) / (b : ℚ))⟩) := by
  constructor
  · intro n
    rfl
  · intro a b hb
    unfold calculate
    rw [if_neg (by decide : ¬("divide" = "add")),
      if_neg (by decide : ¬("divide" = "subtract")),
      if_neg (by decide : ¬("divide" = "multiply")),
      if_pos (rfl : "divide" = "divide"), if_pos hb]

/-- Witness for C5 at `7 / 0` and `7 / 2`. -/
theorem calculate_divide_spec_witness :
    calculate "divide" 7 0 = Http.ok ⟨"divide", 7, 0, CalcValue.infinity⟩ ∧
    calculate "divide" 7 2 =
      Http.ok ⟨"divide", 7, 2, CalcValue.floatVal ((7 : ℚ) / (2 : ℚ))⟩ :=
  ⟨calculate_divide_spec.1 7, calculate_divide_spec.2 7 2 (by norm_num)⟩

/-- Claim C6: every operation string outside add/subtract/multiply/divide
yields HTTP 400 with body `{error: "Invalid operation"}`, while add, subtract
and multiply return the exact integer sum, difference and product. -/
theorem calculate_spec (op : String) (a b : ℤ) :
    (op ∉ (["add", "subtract", "multiply", "divide"] : List String) →
      calculate op a b = Http.badRequest "Invalid operation") ∧
    calculate "add" a b = Http.ok ⟨"add", a, b, CalcValue.intVal (a + b)⟩ ∧
    calculate "subtract" a b =
      Http.ok ⟨"subtract", a, b, CalcValue.intVal (a - b)⟩ ∧
    calculate "multiply" a b =
      Http.ok ⟨"multiply", a, b, CalcValue.intVal (a * b)⟩ := by
  refine ⟨?_, rfl, rfl, rfl⟩
  intro h
  unfold calculate
  simp only [List.mem_cons, List.not_mem_nil, or_false, not_or] at h
  obtain ⟨h1, h2, h3, h4⟩ := h
  rw [if_neg h1, if_neg h2, if_neg h3, if_neg h4]

/-- Witness for C6 at the spec's example `calculate('bogus', 1, 2)`. -/
theorem calculate_spec_witness :
    calculate "bogus" 1 2 = Http.badRequest "Invalid operation" :=
  (calculate_spec "bogus" 1 2).1 (by simp)

/-- Evaluation of the service on `100 USD -> JPY`. -/
theorem convert_usd_jpy_100 :
    convert_currency "USD" "JPY" 100 = Except.ok 15000 := by
  show Except.ok (round2 (100 * (150 / 1))) = Except.ok 15000
  have harg : (100 : ℚ) * (150 / 1) = 15000 := by norm_num
  rw [harg, round2_15000]

/-- Evaluation of the service on `1 JPY -> USD`. -/
theorem convert_jpy_usd_1 :
    convert_currency "JPY" "USD" 1 = Except.ok (1/100) := by
  show Except.ok (round2 (1 * (1 / 150))) = Except.ok (1/100)
  have harg : (1 : ℚ) * (1 / 150) = 1/150 := by norm_num
  rw [harg, round2_inv_150]

/-- Evaluation of the service on `1 EUR -> USD`. -/
theorem convert_eur_usd_1 :
    convert_currency "EUR" "USD" 1 = Except.ok (109/100) := by
  show Except.ok (round2 (1 * (1 / (92/100)))) = Except.ok (109/100)
  have harg : (1 : ℚ) * (1 / (92/100)) = 25/23 := by norm_num
  rw [harg, round2_25_23]

/-- Claim C8, counterexample: the round trip `USD -> JPY -> USD` at amount
`100` yields `15000 * 0.01 = 150`, an error of `50` on an amount of `100`,
which is not `≈ 100` under any rounding tolerance. -/
theorem convert_round_trip_cex :
    convert_currency "USD" "JPY" 100 = Except.ok 15000 ∧
    convert_currency "JPY" "USD" 1 = Except.ok (1/100) ∧
    (15000 : ℚ) * (1/100) = 150 ∧
    ¬(|(15000 : ℚ) * (1/100) - 100| ≤ 1) := by
  refine ⟨convert_usd_jpy_100, convert_jpy_usd_1, by norm_num, ?_⟩
  rw [abs_le]
  norm_num

/-- Claim C8 (amended): for valid currency codes `A`, `B` and any amount, the
round trip recovers the amount only up to the two per-leg rounding errors:
`|convertCurrency(A,B,amt) * convertCurrency(B,A,1) - amt|` is at most
`(|convertCurrency(A,B,amt)| + table[A]/table[B]) * 0.005`. The second
factor `table[A]/table[B]` can be large (e.g. `USD/JPY`), so the unqualified
approximation `≈ amt` of the original claim fails. -/
theorem convert_round_trip_amended (A B : String) (amt rA rB c1 c2 : ℚ)
    (hA : rateOf A = some rA) (hB : rateOf B = some rB)
    (h1 : convert_currency A B amt = Except.ok c1)
    (h2 : convert_currency B A 1 = Except.ok c2) :
    |c1 * c2 - amt| ≤ (|c1| + rA / rB) * (1/200) := by
  have hApos := rateOf_pos hA
  have hBpos := rateOf_pos hB
  have e1 : c1 = round2 (amt * (rB / rA)) := by
    unfold convert_currency at h1
    rw [hA, hB] at h1
    exact (Except.ok.inj h1).symm
  have e2 : c2 = round2 (1 * (rA / rB)) := by
    unfold convert_currency at h2
    rw [hA, hB] at h2
    exact (Except.ok.inj h2).symm
  rw [one_mul] at e2
  have d1 : |c1 - amt * (rB / rA)| ≤ 1/200 := by
    rw [e1]; exact abs_round2_sub_le (amt * (rB / rA))
  have d2 : |c2 - rA / rB| ≤ 1/200 := by
    rw [e2]; exact abs_round2_sub_le (rA / rB)
  have hb : (0 : ℚ) < rA / rB := div_pos hApos hBpos
  have key : amt * (rB / rA) * (rA / rB) = amt := by
    field_simp
  have expand : c1 * c2 - amt =
      c1 * (c2 - rA / rB) + (c1 - amt * (rB / rA)) * (rA / rB) := by
    linear_combination key
  calc |c1 * c2 - amt|
      = |c1 * (c2 - rA / rB) + (c1 - amt * (rB / rA)) * (rA / rB)| := by
        rw [expand]
    _ ≤ |c1 * (c2 - rA / rB)| + |(c1 - amt * (rB / rA)) * (rA / rB)| :=
        abs_add _ _
    _ = |c1| * |c2 - rA / rB| + |c1 - amt * (rB / rA)| * |rA / rB| := by
        rw [abs_mul, abs_mul]
    _ ≤ |c1| * (1/200) + (1/200) * (rA / rB) := by
        have p1 : |c1| * |c2 - rA / rB| ≤ |c1| * (1/200) :=
          mul_le_mul_of_nonneg_left d2 (abs_nonneg c1)
        have p2 : |c1 - amt * (rB / rA)| * (rA / rB) ≤ (1/200) * (rA / rB) :=
          mul_le_mul_of_nonneg_right d1 hb.le
        rw [abs_of_pos hb]
        linarith
    _ = (|c1| + rA / rB) * (1/200) := by ring

/-- Witness for the amended C8 on the round trip `USD -> EUR -> USD` at
amount `100`: the product is `92 * 1.09 = 100.28` and the bound holds. -/
theorem convert_round_trip_amended_witness :
    |(92 : ℚ) * (109/100) - 100| ≤ (|(92 : ℚ)| + 1 / (92/100)) * (1/200) :=
  convert_round_trip_amended "USD" "EUR" 100 1 (92/100) 92 (109/100)
    rfl rfl convert_usd_eur_100 convert_eur_usd_1

/-- Claim C9: the HTTP `/convert` endpoint and the RPC `convert_currency`
operation agree: whenever the endpoint answers for inputs
`(from_currency, to_currency, amount)`, its `result` field is exactly the
value returned by `CurrencyService.convert_currency` on those inputs, and the
other fields echo the inputs. -/
theorem http_convert_refines_service (f t : String) (amount : ℚ)
    (resp : ConvertResponse)
    (h : http_convert ⟨some f, some t, some amount⟩ = Except.ok resp) :
    convert_currency f t amount = Except.ok resp.result ∧
    resp.from_currency = f ∧ resp.to_currency = t ∧ resp.amount = amount := by
  replace h : (match convert_currency f t amount with
    | Except.ok result => Except.ok (ConvertResponse.mk f t amount result)
    | Except.error e => Except.error e) = Except.ok resp := h
  rcases hc : convert_currency f t amount with e | r
  · rw [hc] at h
    cases h
  · rw [hc] at h
    cases h
    exact ⟨rfl, rfl, rfl, rfl⟩

/-- Witness for C9 on `{from_currency: USD, to_currency: EUR, amount: 100}`,
whose HTTP response is `{..., result: 92}`. -/
theorem http_convert_refines_service_witness :
    convert_currency "USD" "EUR" 100 =
      Except.ok (ConvertResponse.mk "USD" "EUR" 100 92).result ∧
    (ConvertResponse.mk "USD" "EUR" 100 92).from_currency = "USD" ∧
    (ConvertResponse.mk "USD" "EUR" 100 92).to_currency = "EUR" ∧
    (ConvertResponse.mk "USD" "EUR" 100 92).amount = 100 := by
  refine http_convert_refines_service "USD" "EUR" 100 ⟨"USD", "EUR", 100, 92⟩ ?_
  show (match convert_currency "USD" "EUR" 100 with
    | Except.ok result => Except.ok (ConvertResponse.mk "USD" "EUR" 100 result)
    | Except.error e => Except.error e) = Except.ok ⟨"USD", "EUR", 100, 92⟩
  rw [convert_usd_eur_100]

/-- Claim C10: when the JSON body of `POST /convert` omits the `amount`
field, the endpoint behaves exactly as with `amount = 1.0` and echoes that
default in the response's `amount` field. -/
theorem http_convert_default_amount (f t : Option String) :
    http_convert ⟨f, t, none⟩ = http_convert ⟨f, t, some 1⟩ ∧
    (∀ resp, http_convert ⟨f, t, none⟩ = Except.ok resp → resp.amount = 1) := by
  constructor
  · rfl
  · intro resp h
    rcases f with _ | f
    · cases h
    · rcases t with _ | t
      · cases h
      · replace h : (match convert_currency f t (1 : ℚ) with
          | Except.ok result => Except.ok (ConvertResponse.mk f t 1 result)
          | Except.error e => Except.error e) = Except.ok resp := h
        rcases hc : convert_currency f t (1 : ℚ) with e | r
        · rw [hc] at h
          cases h
        · rw [hc] at h
          cases h
          rfl

/-- Witness for C10 on `{from_currency: USD, to_currency: EUR}` (no amount):
the response carries the default amount `1.0`. -/
theorem http_convert_default_amount_witness :
    (ConvertResponse.mk "USD" "EUR" 1 (92/100)).amount = 1 := by
  refine (http_convert_default_amount (some "USD") (some "EUR")).2
    ⟨"USD", "EUR", 1, 92/100⟩ ?_
  show (match convert_currency "USD" "EUR" ((none : Option ℚ).getD 1) with
    | Except.ok result => Except.ok (ConvertResponse.mk "USD" "EUR" 1 result)
    | Except.error e => Except.error e) = Except.ok ⟨"USD", "EUR", 1, 92/100⟩
  have h1 : convert_currency "USD" "EUR" ((none : Option ℚ).getD 1) =
      Except.ok (92/100) := by
    show Except.ok (round2 (1 * (92/100 / 1))) = Except.ok (92/100)
    have harg : (1 : ℚ) * (92/100 / 1) = 92/100 := by norm_num
    rw [harg, round2_92_cents]
  rw [h1]
